import Mathlib

/-!
Verification of the client-side data reconciliation layer of the
Quantitative Risk Radar dashboard.

The JavaScript sources are shallowly embedded as Lean definitions:

* JSON values (the decoded bodies the client manipulates) become the
  inductive `JSVal`, with numbers modelled as exact rationals.  JavaScript
  truthiness, field access and the `||` operator are modelled explicitly.
* The zustand store (`riskStore.js`) becomes the record `RiskStore` with one
  Lean function per store action; `new Date()` timestamps are modelled by an
  explicit `now : Nat` argument.
* The fetch client (`api.js`) becomes pure functions over a transcript of
  transport outcomes (one `AttemptOutcome` per attempt the client would
  make); backoff sleeps are recorded as a list of delays in milliseconds.
* The range coordinator and websocket hooks (`useRiskData.js` /
  `useWebSocket.js`) become explicit state machines stepped by event lists,
  following the single-threaded event-loop model of the program.
-/

/-- A decoded JavaScript/JSON value.  Numbers are exact rationals; the
embedding does not model NaN/Infinity (non-numeric payloads that would
coerce to NaN are represented by the non-`num` constructors). -/
inductive JSVal where
  | null
  | undefined
  | bool (b : Bool)
  | num (q : ℚ)
  | str (s : String)
  | arr (elems : List JSVal)
  | obj (fields : List (String × JSVal))

instance : Inhabited JSVal := ⟨.undefined⟩

/-- JavaScript truthiness of a value. -/
def truthy : JSVal → Bool
  | .null => false
  | .undefined => false
  | .bool b => b
  | .num q => decide (q ≠ 0)
  | .str s => decide (s ≠ "")
  | .arr _ => true
  | .obj _ => true

/-- Property access `v.k`: a lookup on objects, `undefined` on everything
else (the embedding's values never carry prototype properties). -/
def getField (v : JSVal) (k : String) : JSVal :=
  match v with
  | .obj fields =>
    match fields.find? (fun p => p.1 = k) with
    | some p => p.2
    | none => .undefined
  | _ => .undefined

/-- `Array.isArray`. -/
def isArr : JSVal → Bool
  | .arr _ => true
  | _ => false

/-- `typeof v === 'string'`. -/
def isStr : JSVal → Bool
  | .str _ => true
  | _ => false

/-- `typeof v === 'number'`. -/
def isNum : JSVal → Bool
  | .num _ => true
  | _ => false

/-- `typeof v === 'object'` (true for objects, arrays and `null`). -/
def typeofObject : JSVal → Bool
  | .obj _ => true
  | .arr _ => true
  | .null => true
  | _ => false

/-- `v === undefined`. -/
def isUndef : JSVal → Bool
  | .undefined => true
  | _ => false

/-- JavaScript `a || b`. -/
def jsOr (a b : JSVal) : JSVal := if truthy a then a else b

/-- The numeric value of a JavaScript value if it is a number; `none`
models values the source filters out with `isNaN`. -/
def toNum : JSVal → Option ℚ
  | .num q => some q
  | _ => none

/-- The elements of an array value (`[]` on non-arrays; only applied to
values already known to be arrays). -/
def asArr : JSVal → List JSVal
  | .arr l => l
  | _ => []

/-- Stringification used when a value is interpolated into an error
message or query string (approximate for composite values, which no claim
exercises). -/
def jsToString : JSVal → String
  | .null => "null"
  | .undefined => "undefined"
  | .bool b => cond b "true" "false"
  | .num q => if q.den = 1 then toString q.num else toString q.num ++ "/" ++ toString q.den
  | .str s => s
  | .arr _ => ""
  | .obj _ => "[object Object]"

/-! ## The store (`src/stores/riskStore.js`) -/

/-- The zustand store state.  `error` is `null` or a message string, so it
is modelled as `Option String`; `lastUpdated` holds the `now` of the last
mutation that touched it. -/
structure RiskStore where
  riskHistory : List JSVal
  summaryData : JSVal
  currentMetrics : JSVal
  isLoading : Bool
  error : Option String
  lastUpdated : Option Nat

/-- The store's declared initial state. -/
def initialStore : RiskStore :=
  { riskHistory := [], summaryData := .null, currentMetrics := .obj [],
    isLoading := false, error := none, lastUpdated := none }

/-- Store action `setRiskData(data)`. -/
def setRiskData (now : Nat) (data : JSVal) (s : RiskStore) : RiskStore :=
  if truthy data && truthy (getField data "data") && isArr (getField data "data") then
    { s with riskHistory := asArr (getField data "data"),
             summaryData := jsOr (getField data "summary") .null,
             currentMetrics := jsOr (getField data "current_metrics") (.obj []),
             lastUpdated := some now,
             error := none }
  else if isArr data then
    -- Legacy array format
    { s with riskHistory := asArr data,
             summaryData := .null,
             currentMetrics := .obj [],
             lastUpdated := some now,
             error := none }
  else
    { s with riskHistory := [], summaryData := .null, currentMetrics := .obj [],
             error := some "Invalid data format" }

/-- Store action `setRealtimeData(realtimeData)`. -/
def setRealtimeData (now : Nat) (realtimeData : JSVal) (s : RiskStore) : RiskStore :=
  { s with currentMetrics := realtimeData, lastUpdated := some now }

/-- Store action `setCurrentMetrics(metrics)`. -/
def setCurrentMetrics (now : Nat) (metrics : JSVal) (s : RiskStore) : RiskStore :=
  { s with currentMetrics := metrics, lastUpdated := some now }

/-- Store action `setLoading(loading)`. -/
def setLoading (loading : Bool) (s : RiskStore) : RiskStore :=
  { s with isLoading := loading }

/-- Store action `setError(error)`. -/
def setError (e : Option String) (s : RiskStore) : RiskStore :=
  { s with error := e }

/-! ## Validators (`src/utils/validators.js`) -/

/-- `isValidNumber` (every `ℚ` of the embedding is a finite non-NaN
number, so this is just the `typeof` check). -/
def isValidNumber (v : JSVal) : Bool := isNum v

/-- `['high','medium','low','RED','YELLOW','GREEN'].includes(v)` —
`includes` compares with strict equality, so only those exact strings
match. -/
def regimeOk : JSVal → Bool
  | .str s =>
    decide (s = "high") || decide (s = "medium") || decide (s = "low") ||
    decide (s = "RED") || decide (s = "YELLOW") || decide (s = "GREEN")
  | _ => false

/-- The per-item check shared by formats 1 and 3 of `isValidRiskData`. -/
def isValidRiskItem (item : JSVal) : Bool :=
  truthy item &&
  (isNum (getField item "systemic_risk") || isNum (getField item "systemic_risk_score")) &&
  regimeOk (jsOr (getField item "risk_level") (getField item "market_regime")) &&
  isStr (getField item "timestamp")

/-- `isValidSystemicRiskData` (format 2 of `isValidRiskData`). -/
def isValidSystemicRiskData (data : JSVal) : Bool :=
  if !truthy data || !truthy (getField data "success") || !truthy (getField data "data") then
    false
  else
    let systemicData := getField data "data"
    let hasCoreComponents :=
      ["Systemic", "PCA", "Credit"].all fun component =>
        !isUndef (getField systemicData component) &&
        isValidNumber (getField systemicData component)
    if !hasCoreComponents then false
    else
      ["Quantile_Signal", "DCC_Corr", "HAR_ExcessVol_Z", "Credit_Spread_Change",
       "VIX_Change", "is_warning", "Composite_Risk_Score"].any fun signal =>
        !isUndef (getField systemicData signal)

/-- `isValidRiskData(data)`: the three accepted response formats, each item
list checked with `.every`. -/
def isValidRiskData (data : JSVal) : Bool :=
  if !truthy data then false
  else if truthy (getField data "data") && isArr (getField data "data") then
    (asArr (getField data "data")).all isValidRiskItem
  else if truthy (getField data "success") && truthy (getField data "data") &&
          typeofObject (getField data "data") then
    isValidSystemicRiskData data
  else if isArr data then
    (asArr data).all isValidRiskItem
  else
    false

/-- `validateApiResponse(response)`: throws on falsy/non-object bodies and
on bodies carrying a truthy `error` field; the thrown message for an error
field is `new Error(response.error)`. -/
def validateApiResponse (response : JSVal) : Except String Unit :=
  if !truthy response || !typeofObject response then
    .error "Invalid API response format"
  else if truthy (getField response "error") then
    .error (jsToString (getField response "error"))
  else
    .ok ()

/-- Decimal digits test for one character. -/
def isDigit (c : Char) : Bool := decide ('0' ≤ c) && decide (c ≤ '9')

/-- The regex `^\d{4}-\d{2}-\d{2}$` of `validateDateRangeParams`. -/
def matchesDateRegex (s : String) : Bool :=
  match s.toList with
  | [a, b, c, d, h1, e, f, h2, g, i] =>
    isDigit a && isDigit b && isDigit c && isDigit d && decide (h1 = '-') &&
    isDigit e && isDigit f && decide (h2 = '-') && isDigit g && isDigit i
  | _ => false

/-- Numeric value of a digit list. -/
def digitsToNat (l : List Char) : Nat :=
  l.foldl (fun acc c => acc * 10 + (c.toNat - '0'.toNat)) 0

/-- Days in a month of the (proleptic) Gregorian calendar. -/
def daysInMonth (y m : Nat) : Nat :=
  if m = 2 then
    if y % 4 = 0 && (y % 100 ≠ 0 || y % 400 = 0) then 29 else 28
  else if m = 4 || m = 6 || m = 9 || m = 11 then 30
  else 31

/-- `new Date(s)` for a `YYYY-MM-DD` string: the ISO date-string parser
rejects out-of-range components (returning an Invalid Date, i.e. `none`);
in-range strings order chronologically, which for this fixed-width format
is the lexicographic order of the `(y, m, d)` triples. -/
def parseISODate (s : String) : Option (Nat × Nat × Nat) :=
  match s.toList with
  | [a, b, c, d, h1, e, f, h2, g, i] =>
    if isDigit a && isDigit b && isDigit c && isDigit d && decide (h1 = '-') &&
       isDigit e && isDigit f && decide (h2 = '-') && isDigit g && isDigit i then
      let y := digitsToNat [a, b, c, d]
      let m := digitsToNat [e, f]
      let day := digitsToNat [g, i]
      if 1 ≤ m && m ≤ 12 && 1 ≤ day && day ≤ daysInMonth y m then
        some (y, m, day)
      else none
    else none
  | _ => none

/-- Lexicographic order on `(year, month, day)` triples: the chronological
order of valid calendar dates. -/
def dateTripleLt (a b : Nat × Nat × Nat) : Bool :=
  decide (a.1 < b.1) ||
  (decide (a.1 = b.1) &&
    (decide (a.2.1 < b.2.1) || (decide (a.2.1 = b.2.1) && decide (a.2.2 < b.2.2))))

/-- `new Date(startDate) > new Date(endDate)`: false whenever either date
is invalid (NaN comparisons are false in JavaScript). -/
def dateAfter (startDate endDate : String) : Bool :=
  match parseISODate startDate, parseISODate endDate with
  | some a, some b => dateTripleLt b a
  | _, _ => false

/-- `validateDateRangeParams({days, startDate, endDate})`; an absent
parameter is `JSVal.undefined`. -/
def validateDateRangeParams (days startDate endDate : JSVal) : Except String Unit :=
  if !isUndef days &&
     !(isValidNumber days && decide (0 < (toNum days).getD 0)) then
    .error "Days parameter must be a positive number"
  else if !isUndef startDate &&
          !(isStr startDate && matchesDateRegex (jsToString startDate)) then
    .error "startDate must be in YYYY-MM-DD format"
  else if !isUndef endDate &&
          !(isStr endDate && matchesDateRegex (jsToString endDate)) then
    .error "endDate must be in YYYY-MM-DD format"
  else if truthy startDate && truthy endDate &&
          dateAfter (jsToString startDate) (jsToString endDate) then
    .error "startDate cannot be after endDate"
  else
    .ok ()

/-! ## Summary synthesis (`ApiService._generateSummaryFromArray`) -/

/-- `d.systemic_risk || 0`. -/
def riskOrZero (d : JSVal) : JSVal := jsOr (getField d "systemic_risk") (.num 0)

/-- `data.map(d => d.systemic_risk || 0).filter(risk => !isNaN(risk))`:
over the exact-rational embedding every number passes the `isNaN` filter,
so the filter drops exactly the non-numeric (NaN-coercing) values. -/
def systemicRisks (data : List JSVal) : List ℚ :=
  (data.map riskOrZero).filterMap toNum

/-- `Math.min(...)` over a non-empty list (0 is a dummy for the empty
list, which the caller rules out). -/
def listMin : List ℚ → ℚ
  | [] => 0
  | x :: xs => xs.foldl min x

/-- `Math.max(...)` over a non-empty list. -/
def listMax : List ℚ → ℚ
  | [] => 0
  | x :: xs => xs.foldl max x

/-- The summary object synthesized for the legacy array format.  The
source stores `period_std = Math.sqrt(v)` where `v` is the population
variance; the square root is irrational in general, so the structure keeps
the exact radicand `period_var` and `LegacySummary.period_std` below
exposes the stored value `Real.sqrt period_var`. -/
structure LegacySummary where
  period_mean : ℚ
  period_var : ℚ
  period_min : ℚ
  period_max : ℚ
  data_points : Nat
  range_start : JSVal
  range_end : JSVal

/-- `period_std` as the source stores it: `Math.sqrt` of the population
variance. -/
noncomputable def LegacySummary.period_std (s : LegacySummary) : ℝ :=
  Real.sqrt (s.period_var : ℝ)

/-- `ApiService._generateSummaryFromArray(data)` (`data` already known to
be an array: the `!Array.isArray` guard is the `List` type). -/
def generateSummaryFromArray (data : List JSVal) : Option LegacySummary :=
  if data.isEmpty then none
  else
    let risks := systemicRisks data
    if risks.isEmpty then none
    else
      let mean := risks.sum / (risks.length : ℚ)
      some { period_mean := mean
             period_var := ((risks.map fun risk => (risk - mean) ^ 2).sum) / (risks.length : ℚ)
             period_min := listMin risks
             period_max := listMax risks
             data_points := data.length
             range_start := jsOr (getField (data.headI) "date") (.str "")
             range_end := jsOr (getField (data.getLastD .undefined) "date") (.str "") }

/-- JSVal rendering of the synthesized summary used when the legacy
response is wrapped into the enhanced structure.  `period_std` is
irrational in general and (being a float in the source) is carried at the
`LegacySummary` level only; no downstream consumer in the verified layer
reads it back out of the wrapped object. -/
def summaryToJS : Option LegacySummary → JSVal
  | none => .null
  | some st =>
    .obj [("period_mean", .num st.period_mean),
          ("period_min", .num st.period_min),
          ("period_max", .num st.period_max),
          ("data_points", .num st.data_points),
          ("date_range", .obj [("start", st.range_start), ("end", st.range_end)])]

/-! ## The fetch client (`ApiService.fetchWithRetry` / `getRiskHistory`) -/

/-- What the transport does on one attempt: the promise rejects
(`netError`), resolves with a non-2xx status (`httpError`), or resolves
with a decoded JSON body (`ok`). -/
inductive AttemptOutcome where
  | netError (msg : String)
  | httpError (status : Nat)
  | ok (body : JSVal)

/-- The result of one iteration of the `try` block: the thrown message, or
the validated body.  A body failing `validateApiResponse` throws inside
the same `try`, so it lands in the same `catch` as transport errors. -/
def attemptResult : AttemptOutcome → Except String JSVal
  | .netError msg => .error msg
  | .httpError status => .error ("HTTP error! status: " ++ toString status)
  | .ok body =>
    match validateApiResponse body with
    | .error e => .error e
    | .ok _ => .ok body

/-- What a run of the retry loop produces: the fulfilled value or thrown
message, the store left behind, the number of attempts made, and the
backoff delays slept (ms, in order). -/
structure RetryResult where
  result : Except String JSVal
  store : RiskStore
  attempts : Nat
  delays : List Nat

/-- One run of `fetchWithRetry`'s `for` loop, by structural recursion on
the remaining iterations: `remaining = retries - attempt`, so the source's
final-attempt test `attempt === retries - 1` is `remaining = 1`. -/
def fetchRetryGo (outcomes : List AttemptOutcome) (remaining attempt : Nat)
    (s : RiskStore) (delays : List Nat) : RetryResult :=
  match remaining with
  | 0 => ⟨.ok .undefined, s, attempt, delays⟩
  | r + 1 =>
    match attemptResult (outcomes.getD attempt (.netError "Failed to fetch")) with
    | .ok v => ⟨.ok v, s, attempt + 1, delays⟩
    | .error e =>
      if r = 0 then
        ⟨.error e, setError (some e) s, attempt + 1, delays⟩
      else
        fetchRetryGo outcomes r (attempt + 1) s (delays ++ [2 ^ attempt * 1000])

/-- `ApiService.fetchWithRetry(endpoint, options, retries)`: the transport
is given as the transcript `outcomes` (attempt `k` observes `outcomes[k]`). -/
def fetchWithRetry (outcomes : List AttemptOutcome) (retries : Nat) (s : RiskStore) :
    RetryResult :=
  fetchRetryGo outcomes retries 0 s []

/-! ## `ApiService.getRiskHistory` and the `useRiskData` fetch wrapper -/

/-- A canonicalized range `{days, startDate, endDate}` (a `none` field is
`undefined`/`null`, which behave identically for the truthiness tests and
`!==` comparisons below). -/
structure NormRange where
  days : Option ℚ
  startDate : Option String
  endDate : Option String
deriving DecidableEq

/-- Truthiness of the `days` field. -/
def truthyDays : Option ℚ → Bool
  | some d => decide (d ≠ 0)
  | none => false

/-- Truthiness of a date field. -/
def truthyStr : Option String → Bool
  | some s => decide (s ≠ "")
  | none => false

/-- The query parameters `getRiskHistory` appends, in order: each truthy
field, then the `days=180` default when no field was truthy. -/
def buildParams (r : NormRange) : List (String × String) :=
  (if truthyDays r.days then [("days", jsToString (.num (r.days.getD 0)))] else []) ++
  (if truthyStr r.startDate then [("start_date", r.startDate.getD "")] else []) ++
  (if truthyStr r.endDate then [("end_date", r.endDate.getD "")] else []) ++
  (if !truthyDays r.days && !truthyStr r.startDate && !truthyStr r.endDate then
    [("days", "180")] else [])

/-- The legacy-array branch of `getRiskHistory`: `{data: response,
summary: this._generateSummaryFromArray(response)}`. -/
def wrapLegacy (response : JSVal) : JSVal :=
  .obj [("data", response),
        ("summary", summaryToJS (generateSummaryFromArray (asArr response)))]

/-- Everything `getRiskHistory` produces: its return value or thrown
message, the store it leaves behind, the number of transport attempts
made, the backoff delays slept, and the query parameters of the request it
issued. -/
structure GetRiskResult where
  result : Except String JSVal
  store : RiskStore
  attempts : Nat
  delays : List Nat
  params : List (String × String)

/-- `ApiService.getRiskHistory({days, startDate, endDate})`.  No range
validation is performed; the `finally` clause clears `isLoading` on every
path. -/
def getRiskHistory (range : NormRange) (outcomes : List AttemptOutcome)
    (s : RiskStore) : GetRiskResult :=
  let s0 := setLoading true s
  let params := buildParams range
  let rr := fetchWithRetry outcomes 3 s0
  match rr.result with
  | .error e => ⟨.error e, setLoading false rr.store, rr.attempts, rr.delays, params⟩
  | .ok response =>
    if truthy response && truthy (getField response "data") &&
       isArr (getField response "data") then
      ⟨.ok response, setLoading false rr.store, rr.attempts, rr.delays, params⟩
    else if isArr response then
      ⟨.ok (wrapLegacy response), setLoading false rr.store, rr.attempts, rr.delays, params⟩
    else
      ⟨.error "Invalid risk data format received", setLoading false rr.store,
       rr.attempts, rr.delays, params⟩

/-- The raw argument of `useRiskData`'s fetch: a number, a range object,
or null/undefined. -/
inductive RangeInput where
  | numDays (n : ℚ)
  | rangeObj (days : Option ℚ) (startDate : Option String) (endDate : Option String)
  | nullish
deriving DecidableEq

/-- `normalizeRange(range)` from `useRiskData.js`. -/
def normalizeRange : RangeInput → NormRange
  | .nullish => ⟨none, none, none⟩
  | .numDays n => ⟨some n, none, none⟩
  | .rangeObj d sd ed => ⟨d, sd, ed⟩

/-- What the hook-level fetch leaves behind. -/
structure HookFetchResult where
  store : RiskStore
  attempts : Nat
  delays : List Nat

/-- `fetchRiskHistory(rangeInput)` from `useRiskData.js`: the
`if (isLoading) return` guard, then `setLoading(true)`, the API call,
store update or error capture, and `finally setLoading(false)`.  In the
source the guard reads the `isLoading` captured at the render that
created the callback, not the live store; here `s` plays both roles at
once, which is exact for a single invocation from a commit whose captured
flag agrees with the store (how every theorem below invokes it: an idle
store, both flags false).  The commit-level interleaving where the two
values diverge — two effects of one commit sharing a stale captured flag —
is modelled separately by `HookState`/`hookStep`. -/
def fetchRiskHistory (rangeInput : RangeInput) (outcomes : List AttemptOutcome)
    (now : Nat) (s : RiskStore) : HookFetchResult :=
  let range := normalizeRange rangeInput
  if s.isLoading then ⟨s, 0, []⟩
  else
    let s1 := setLoading true s
    let g := getRiskHistory range outcomes s1
    match g.result with
    | .ok response =>
      if truthy response && truthy (getField response "data") &&
         isArr (getField response "data") then
        ⟨setLoading false (setError none (setRiskData now response g.store)),
         g.attempts, g.delays⟩
      else
        -- `throw new Error('Invalid response format from API')`, caught below
        ⟨setLoading false (setError (some "Invalid response format from API") g.store),
         g.attempts, g.delays⟩
    | .error e =>
      ⟨setLoading false (setError (some e) g.store), g.attempts, g.delays⟩

/-! ## The hook's fetch coordination (`useRiskData`'s two effects)

`useRiskData` has two fetch-triggering effects, run in declaration order
in each commit: the smart-fetch effect (fetch when the normalized range
differs from `previousRangeRef`) and the initial-fetch effect (fetch once
on mount when the captured `riskHistory` is empty; its dependency array
is `[]`).  Both call `fetchRiskHistory`, whose `if (isLoading) return`
guard closes over the `isLoading` destructured at that commit's render —
the render-captured value, not the live store — so within one commit the
guard is stale. -/

/-- The effect's change test: `!prev || prev.days !== cur.days ||
prev.startDate !== cur.startDate || prev.endDate !== cur.endDate`. -/
def rangeChanged (prev : Option NormRange) (cur : NormRange) : Bool :=
  match prev with
  | none => true
  | some p =>
    decide (p.days ≠ cur.days) || decide (p.startDate ≠ cur.startDate) ||
    decide (p.endDate ≠ cur.endDate)

/-- The hook's fetch-coordination state: `previousRangeRef` (a ref, so it
survives renders), the live store's `isLoading`, the render-captured
values `fetchRiskHistory`'s closure actually reads (`isLoading`, and
whether the captured `riskHistory` was empty), and the number of
unresolved fetches (observational, to state the in-flight claim). -/
structure HookState where
  prevRange : Option NormRange
  storeLoading : Bool
  capturedLoading : Bool
  capturedHistoryEmpty : Bool
  inFlight : Nat
deriving DecidableEq

/-- The hook's state at first mount: idle store, empty history, captures
taken by the mount render. -/
def initialHookState : HookState :=
  { prevRange := none, storeLoading := false, capturedLoading := false,
    capturedHistoryEmpty := true, inFlight := 0 }

/-- Entry of `fetchRiskHistory` as an effect executes it: the
`if (isLoading) return` guard reads the render-captured flag; past the
guard, `setLoading(true)` hits the live store and the fetch departs. -/
def hookFetchStart (s : HookState) : HookState × Bool :=
  if s.capturedLoading then (s, false)
  else ({ s with storeLoading := true, inFlight := s.inFlight + 1 }, true)

/-- The smart-fetch effect: update `previousRangeRef` and fetch exactly
when the normalized range differs from it by some field. -/
def smartFetchEffect (r : RangeInput) (s : HookState) : HookState × Bool :=
  let cur := normalizeRange r
  if rangeChanged s.prevRange cur then
    hookFetchStart { s with prevRange := some cur }
  else (s, false)

/-- The initial-fetch effect: `fetchRiskHistory(daysRange)` when the
render-captured `riskHistory` is empty; it runs exactly once, in the
mount commit. -/
def initialFetchEffect (s : HookState) : HookState × Bool :=
  if s.capturedHistoryEmpty then hookFetchStart s else (s, false)

/-- Hook events: a commit's render phase (re-capturing the store into the
closures), the mount commit's effect phase (smart-fetch effect then
initial-fetch effect, sharing the mount render's captures), a later
commit's effect phase (smart-fetch effect only), and an in-flight fetch
resolving (its `finally setLoading(false)`). -/
inductive HookEvent where
  | render
  | mount (r : RangeInput)
  | trigger (r : RangeInput)
  | resolve
deriving DecidableEq

/-- One event-loop step of the hook; the returned list holds the
canonical range of each fetch the step initiated, in order. -/
def hookStep (s : HookState) : HookEvent → HookState × List NormRange
  | .render => ({ s with capturedLoading := s.storeLoading }, [])
  | .mount r =>
    let (s1, b1) := smartFetchEffect r s
    let (s2, b2) := initialFetchEffect s1
    (s2, (if b1 then [normalizeRange r] else []) ++
         (if b2 then [normalizeRange r] else []))
  | .trigger r =>
    let (s1, b1) := smartFetchEffect r s
    (s1, if b1 then [normalizeRange r] else [])
  | .resolve => ({ s with storeLoading := false, inFlight := s.inFlight - 1 }, [])

/-! ## The stream client (`useWebSocket.js`) -/

/-- `readyState` of a socket, as far as the hook inspects it. -/
inductive SockSt where
  | connecting
  | opened
  | closed
deriving DecidableEq

/-- A socket object: an identity (so reconnections are observable) and its
ready state. -/
structure Socket where
  id : Nat
  st : SockSt
deriving DecidableEq

/-- The hook's state: `socketRef.current`, the pending `setTimeout`
reconnect delays (in ms, in scheduling order), a counter for fresh socket
identities, and the store the handlers write to. -/
structure WSState where
  socket : Option Socket
  timers : List Nat
  nextId : Nat
  store : RiskStore

/-- `connect()`: returns immediately when the current socket is `OPEN`,
otherwise replaces `socketRef.current` with a fresh `WebSocket`. -/
def wsConnect (s : WSState) : WSState :=
  match s.socket with
  | some sk =>
    if sk.st = .opened then s
    else { s with socket := some ⟨s.nextId, .connecting⟩, nextId := s.nextId + 1 }
  | none => { s with socket := some ⟨s.nextId, .connecting⟩, nextId := s.nextId + 1 }

/-- Events delivered to the hook by the event loop.  `evMessage` carries
the result of `JSON.parse` (`none` = the parse threw); `evDisconnect` is
the consumer unmounting (the effect cleanup calling `disconnect()`);
`evTimerFire` is the earliest scheduled reconnect timer firing. -/
inductive WSEvent where
  | evOpen
  | evMessage (parsed : Option JSVal) (now : Nat)
  | evClose
  | evError
  | evDisconnect
  | evTimerFire

/-- One event-loop step of the hook; the returned `Bool` records whether
the message was forwarded (to the store and the observer callback). -/
def wsStep (s : WSState) : WSEvent → WSState × Bool
  | .evOpen =>
    ({ s with socket := s.socket.map fun sk => { sk with st := .opened },
              store := setError none s.store }, false)
  | .evMessage parsed now =>
    match parsed with
    | none =>
      ({ s with store := setError (some "Failed to process WebSocket message") s.store },
       false)
    | some data =>
      if truthy data && truthy (getField data "timestamp") &&
         !truthy (getField data "error") then
        ({ s with store := setRealtimeData now data s.store }, true)
      else
        (s, false)
  | .evClose =>
    -- `setTimeout(() => connect(), 5000)`: scheduled unconditionally; the
    -- timer id is never stored, so nothing can clear it.
    ({ s with timers := s.timers ++ [5000] }, false)
  | .evError =>
    ({ s with store := setError (some "WebSocket connection error") s.store }, false)
  | .evDisconnect =>
    -- `disconnect()`: closes the socket and nulls the ref.  The pending
    -- reconnect timers are left untouched.
    match s.socket with
    | some _ => ({ s with socket := none }, false)
    | none => (s, false)
  | .evTimerFire =>
    (wsConnect { s with timers := s.timers.drop 1 }, false)

/-! ## Claims

One theorem per claim of the specification review, in claim order, each
with a closed witness or counterexample at concrete inputs. -/

/-- C10: for every argument that is neither an object with an array-valued
`data` field nor itself an array, `setRiskData` resets `riskHistory` to
`[]`, `summaryData` to `null`, `currentMetrics` to `{}`, and sets `error`
to `'Invalid data format'` — the previously loaded history is not
preserved (and `lastUpdated`/`isLoading` are untouched, as the record
update shows). -/
theorem setRiskData_invalid_input_resets (now : Nat) (v : JSVal) (s : RiskStore)
    (hdata : isArr (getField v "data") = false) (harr : isArr v = false) :
    setRiskData now v s =
      { s with riskHistory := [], summaryData := .null, currentMetrics := .obj [],
               error := some "Invalid data format" } := by
  simp [setRiskData, hdata, harr]

/-- Witness for C10 at the concrete non-object, non-array input `5`. -/
theorem setRiskData_invalid_input_resets_witness :
    isArr (getField (JSVal.num 5) "data") = false ∧ isArr (JSVal.num 5) = false ∧
    setRiskData 7 (JSVal.num 5)
        { initialStore with riskHistory := [JSVal.obj [("date", .str "2024-01-01")]] } =
      { initialStore with
          riskHistory := [], summaryData := .null, currentMetrics := .obj [],
          error := some "Invalid data format" } :=
  ⟨rfl, rfl, setRiskData_invalid_input_resets 7 (JSVal.num 5)
    { initialStore with riskHistory := [JSVal.obj [("date", .str "2024-01-01")]] } rfl rfl⟩

/-- C8, counterexample: `setRealtimeData` (applying a valid stream message
to the snapshot) does not clear a previously set `error` — the claim says
it must. -/
theorem setRealtimeData_keeps_error_counterexample :
    (setRealtimeData 3 (JSVal.obj [("timestamp", .str "2024-01-01T00:00:00Z")])
        { initialStore with error := some "boom" }).error = some "boom" ∧
    (some "boom" : Option String) ≠ none :=
  ⟨rfl, by decide⟩

/-- C8, amended: every successful mutation of history or snapshot sets
`lastUpdated`, and `setRiskData` (both accepted shapes) clears `error`;
but the snapshot mutators `setRealtimeData`/`setCurrentMetrics` leave
`error` unchanged, so `error` stays sticky until the next successful
`setRiskData` or an explicit `setError`. -/
theorem store_mutation_error_policy_amended (now : Nat) (v : JSVal) (s : RiskStore) :
    ((truthy v && truthy (getField v "data") && isArr (getField v "data")) = true →
      (setRiskData now v s).lastUpdated = some now ∧ (setRiskData now v s).error = none) ∧
    (isArr v = true →
      (setRiskData now v s).lastUpdated = some now ∧ (setRiskData now v s).error = none) ∧
    (setRealtimeData now v s).lastUpdated = some now ∧
    (setRealtimeData now v s).error = s.error ∧
    (setCurrentMetrics now v s).lastUpdated = some now ∧
    (setCurrentMetrics now v s).error = s.error := by
  refine ⟨fun h => ?_, fun h => ?_, rfl, rfl, rfl, rfl⟩
  · simp [setRiskData, h]
  · by_cases hc : (truthy v && truthy (getField v "data") && isArr (getField v "data")) = true
    · simp [setRiskData, hc]
    · simp [setRiskData, hc, h]

/-- Witness for C8 as amended: a legacy-array `setRiskData` clears a stale
error and stamps `lastUpdated`, while `setRealtimeData` stamps
`lastUpdated` but keeps the stale error. -/
theorem store_mutation_error_policy_amended_witness :
    isArr (JSVal.arr []) = true ∧
    (setRiskData 4 (JSVal.arr []) { initialStore with error := some "x" }).error = none ∧
    (setRealtimeData 4 (JSVal.arr []) { initialStore with error := some "x" }).error = some "x" ∧
    (setRealtimeData 4 (JSVal.arr []) { initialStore with error := some "x" }).lastUpdated = some 4 :=
  ⟨rfl,
   ((store_mutation_error_policy_amended 4 (JSVal.arr [])
      { initialStore with error := some "x" }).2.1 rfl).2,
   (store_mutation_error_policy_amended 4 (JSVal.arr [])
      { initialStore with error := some "x" }).2.2.2.1,
   (store_mutation_error_policy_amended 4 (JSVal.arr [])
      { initialStore with error := some "x" }).2.2.1⟩

/-- C6, counterexample: a push message whose `timestamp` is the number `1`
(truthy but not a string) is forwarded to the store as a snapshot
replacement — the claim says only messages with a *string* `timestamp` are
accepted. -/
theorem wsMessage_truthy_timestamp_counterexample :
    (wsStep ⟨some ⟨0, .opened⟩, [], 1, initialStore⟩
        (.evMessage (some (JSVal.obj [("timestamp", .num 1)])) 9)).2 = true ∧
    (wsStep ⟨some ⟨0, .opened⟩, [], 1, initialStore⟩
        (.evMessage (some (JSVal.obj [("timestamp", .num 1)])) 9)).1.store.currentMetrics =
      JSVal.obj [("timestamp", .num 1)] ∧
    isStr (getField (JSVal.obj [("timestamp", .num 1)]) "timestamp") = false :=
  ⟨rfl, rfl, rfl⟩

/-- C6, amended: an inbound message is forwarded to the store (snapshot
replacement) and the observer iff it decodes as JSON to a truthy value
with a *truthy* `timestamp` field and a falsy `error` field; every other
message is dropped without changing the connection state (socket and
timers), a failed decode additionally writing a store error. -/
theorem wsMessage_acceptance_amended (s : WSState) (m : Option JSVal) (now : Nat) :
    ((wsStep s (.evMessage m now)).1.socket = s.socket ∧
     (wsStep s (.evMessage m now)).1.timers = s.timers) ∧
    (m = none →
      (wsStep s (.evMessage m now)).2 = false ∧
      (wsStep s (.evMessage m now)).1.store =
        setError (some "Failed to process WebSocket message") s.store) ∧
    (∀ data, m = some data →
      ((wsStep s (.evMessage m now)).2 =
        (truthy data && truthy (getField data "timestamp") &&
         !truthy (getField data "error"))) ∧
      ((truthy data && truthy (getField data "timestamp") &&
        !truthy (getField data "error")) = true →
        (wsStep s (.evMessage m now)).1.store = setRealtimeData now data s.store) ∧
      ((truthy data && truthy (getField data "timestamp") &&
        !truthy (getField data "error")) = false →
        (wsStep s (.evMessage m now)).1 = s)) := by
  constructor
  · cases m with
    | none => exact ⟨rfl, rfl⟩
    | some data =>
      by_cases hc : (truthy data && truthy (getField data "timestamp") &&
        !truthy (getField data "error")) = true
      · simp [wsStep, hc]
      · simp [wsStep, hc]
  constructor
  · rintro rfl
    exact ⟨rfl, rfl⟩
  · rintro data rfl
    by_cases hc : (truthy data && truthy (getField data "timestamp") &&
      !truthy (getField data "error")) = true
    · refine ⟨by simp [wsStep, hc], fun _ => by simp [wsStep, hc], fun hfalse => ?_⟩
      rw [hc] at hfalse
      exact absurd hfalse (by decide)
    · have hcf : (truthy data && truthy (getField data "timestamp") &&
        !truthy (getField data "error")) = false := by
        simpa using hc
      exact ⟨by simp [wsStep, hcf], fun htrue => absurd htrue hc,
             fun _ => by simp [wsStep, hcf]⟩

/-- Witness for C6 as amended: a well-formed message (truthy string
timestamp, no error field) is forwarded and replaces the snapshot. -/
theorem wsMessage_acceptance_amended_witness :
    (truthy (JSVal.obj [("timestamp", .str "t1")]) &&
     truthy (getField (JSVal.obj [("timestamp", .str "t1")]) "timestamp") &&
     !truthy (getField (JSVal.obj [("timestamp", .str "t1")]) "error")) = true ∧
    (wsStep ⟨some ⟨0, .opened⟩, [], 1, initialStore⟩
        (.evMessage (some (JSVal.obj [("timestamp", .str "t1")])) 11)).1.store =
      setRealtimeData 11 (JSVal.obj [("timestamp", .str "t1")]) initialStore :=
  ⟨rfl,
   (((wsMessage_acceptance_amended ⟨some ⟨0, .opened⟩, [], 1, initialStore⟩
       (some (JSVal.obj [("timestamp", .str "t1")])) 11).2.2
     (JSVal.obj [("timestamp", .str "t1")]) rfl).2.1 rfl)⟩

/-- C7: every socket close schedules exactly one reconnect at the fixed
5-second delay, but explicit teardown does not cancel it — `disconnect()`
nulls the ref and closes the socket without clearing the timeout (the
timer id is never stored), so after the trace open → close → unmount the
pending timer is still there and, on firing, `connect()` opens a fresh
socket.  The code therefore reconnects after explicit teardown, against
the claim (and the cleanup's evident intent). -/
theorem wsReconnect_after_teardown_bug :
    (∀ s : WSState, (wsStep s .evClose).1.timers = s.timers ++ [5000]) ∧
    ((wsStep (wsStep (wsStep (wsConnect ⟨none, [], 0, initialStore⟩)
        .evOpen).1 .evClose).1 .evDisconnect).1.timers = [5000] ∧
     (wsStep (wsStep (wsStep (wsConnect ⟨none, [], 0, initialStore⟩)
        .evOpen).1 .evClose).1 .evDisconnect).1.socket = none ∧
     (wsStep (wsStep (wsStep (wsStep (wsConnect ⟨none, [], 0, initialStore⟩)
        .evOpen).1 .evClose).1 .evDisconnect).1 .evTimerFire).1.socket =
       some ⟨1, .connecting⟩) :=
  ⟨fun _ => rfl, rfl, rfl, rfl⟩

/-- A trigger whose guard sees a set captured loading flag starts no
fetch and leaves nothing queued for later. -/
theorem trigger_capturedLoading_no_start (s : HookState) (r : RangeInput)
    (h : s.capturedLoading = true) :
    (hookStep s (.trigger r)).2 = [] ∧
    (hookStep s (.trigger r)).1.inFlight = s.inFlight := by
  simp only [hookStep, smartFetchEffect, hookFetchStart]
  by_cases hch : rangeChanged s.prevRange (normalizeRange r) = true
  · simp [hch, h]
  · have hch' : rangeChanged s.prevRange (normalizeRange r) = false := by simpa using hch
    simp [hch']

/-- C5, counterexample: on mount both effects run in one commit against
the same render-captured `isLoading = false`, so after the smart-fetch
effect starts a fetch the initial-fetch effect passes the now-stale guard
and starts a second concurrent fetch for the identical canonical range —
two fetches for one distinct range, two in flight, against the claim's
"zero fetches for a repeated identical range" and "at most one fetch in
flight per store instance". -/
theorem mount_double_fetch_counterexample :
    (hookStep initialHookState (.mount (.numDays 180))).2 =
      [⟨some 180, none, none⟩, ⟨some 180, none, none⟩] ∧
    (hookStep initialHookState (.mount (.numDays 180))).1.inFlight = 2 ∧
    ¬(2 ≤ 1) :=
  ⟨rfl, rfl, by decide⟩

/-- C5, amended: the smart-fetch effect initiates a fetch exactly when
the canonicalized range differs in some field from the last triggered
range and the render-captured `isLoading` is false — zero fetches from it
for a repeated identical range, and a trigger whose captured flag is set
is dropped, not queued or coalesced; a commit that renders while the
store is loading sees a current flag, so its trigger starts nothing.
"At most one fetch in flight" fails only at mount: the initial-fetch
effect runs in the same commit against the same stale captured flag, so
mounting starts two concurrent fetches for the identical initial range. -/
theorem range_effects_amended (s : HookState) (r : RangeInput) :
    ((hookStep s (.trigger r)).2 =
      if rangeChanged s.prevRange (normalizeRange r) && !s.capturedLoading then
        [normalizeRange r] else []) ∧
    (s.prevRange = some (normalizeRange r) → hookStep s (.trigger r) = (s, [])) ∧
    (s.capturedLoading = true → (hookStep s (.trigger r)).2 = [] ∧
      (hookStep s (.trigger r)).1.inFlight = s.inFlight) ∧
    (s.storeLoading = true →
      (hookStep (hookStep s .render).1 (.trigger r)).2 = []) ∧
    (hookStep initialHookState (.mount r)).2 =
      [normalizeRange r, normalizeRange r] ∧
    (hookStep initialHookState (.mount r)).1.inFlight = 2 := by
  refine ⟨?_, ?_, fun h => trigger_capturedLoading_no_start s r h, ?_, ?_, ?_⟩
  · by_cases hch : rangeChanged s.prevRange (normalizeRange r) = true
    · by_cases hl : s.capturedLoading = true
      · simp [hookStep, smartFetchEffect, hookFetchStart, hch, hl]
      · have hl' : s.capturedLoading = false := by simpa using hl
        simp [hookStep, smartFetchEffect, hookFetchStart, hch, hl']
    · have hch' : rangeChanged s.prevRange (normalizeRange r) = false := by simpa using hch
      simp [hookStep, smartFetchEffect, hch']
  · intro hprev
    have hch : rangeChanged s.prevRange (normalizeRange r) = false := by
      simp [rangeChanged, hprev]
    simp [hookStep, smartFetchEffect, hch]
  · intro hload
    have hcap : (hookStep s .render).1.capturedLoading = true := by
      simp [hookStep, hload]
    exact (trigger_capturedLoading_no_start _ r hcap).1
  · simp [hookStep, smartFetchEffect, initialFetchEffect, hookFetchStart,
      initialHookState, rangeChanged]
  · simp [hookStep, smartFetchEffect, initialFetchEffect, hookFetchStart,
      initialHookState, rangeChanged]

/-- Witness for C5 as amended: a repeated 90-day range starts nothing; a
trigger against a set captured flag is dropped; after a render during a
load, the trigger is likewise dropped. -/
theorem range_effects_amended_witness :
    ((⟨some ⟨some 90, none, none⟩, false, false, false, 0⟩ : HookState).prevRange =
      some (normalizeRange (.numDays 90))) ∧
    hookStep (⟨some ⟨some 90, none, none⟩, false, false, false, 0⟩ : HookState)
        (.trigger (.numDays 90)) =
      (⟨some ⟨some 90, none, none⟩, false, false, false, 0⟩, []) ∧
    ((⟨some ⟨some 90, none, none⟩, true, true, false, 1⟩ : HookState).capturedLoading =
      true) ∧
    (hookStep (⟨some ⟨some 90, none, none⟩, true, true, false, 1⟩ : HookState)
        (.trigger (.numDays 30))).2 = [] ∧
    ((⟨some ⟨some 90, none, none⟩, true, false, false, 1⟩ : HookState).storeLoading =
      true) ∧
    (hookStep (hookStep (⟨some ⟨some 90, none, none⟩, true, false, false, 1⟩ : HookState)
        .render).1 (.trigger (.numDays 30))).2 = [] :=
  ⟨by decide,
   (range_effects_amended ⟨some ⟨some 90, none, none⟩, false, false, false, 0⟩
       (.numDays 90)).2.1 (by decide),
   rfl,
   ((range_effects_amended ⟨some ⟨some 90, none, none⟩, true, true, false, 1⟩
       (.numDays 30)).2.2.1 rfl).1,
   rfl,
   (range_effects_amended ⟨some ⟨some 90, none, none⟩, true, false, false, 1⟩
       (.numDays 30)).2.2.2.1 rfl⟩

/-- The retry loop makes at most `attempt + remaining` attempts. -/
theorem fetchRetryGo_attempts_le (remaining : Nat) :
    ∀ (attempt : Nat) (outcomes : List AttemptOutcome) (s : RiskStore) (delays : List Nat),
      (fetchRetryGo outcomes remaining attempt s delays).attempts ≤ attempt + remaining := by
  induction remaining with
  | zero => intro attempt outcomes s delays; simp [fetchRetryGo]
  | succ r ih =>
    intro attempt outcomes s delays
    simp only [fetchRetryGo]
    match attemptResult (outcomes.getD attempt (.netError "Failed to fetch")) with
    | .ok v => simp
    | .error e =>
      by_cases hr : r = 0
      · simp [hr]
      · simp only [if_neg hr]
        calc (fetchRetryGo outcomes r (attempt + 1) s
                (delays ++ [2 ^ attempt * 1000])).attempts
            ≤ attempt + 1 + r := ih (attempt + 1) outcomes s _
          _ = attempt + (r + 1) := by omega

/-- A retry loop entered with at least one remaining iteration makes at
least one more attempt. -/
theorem fetchRetryGo_attempts_lower (remaining : Nat) :
    ∀ (attempt : Nat) (outcomes : List AttemptOutcome) (s : RiskStore) (delays : List Nat),
      1 ≤ remaining →
      attempt + 1 ≤ (fetchRetryGo outcomes remaining attempt s delays).attempts := by
  induction remaining with
  | zero => intro _ _ _ _ h; omega
  | succ r ih =>
    intro attempt outcomes s delays _
    simp only [fetchRetryGo]
    match attemptResult (outcomes.getD attempt (.netError "Failed to fetch")) with
    | .ok v => simp
    | .error e =>
      by_cases hr : r = 0
      · simp [hr]
      · simp only [if_neg hr]
        calc attempt + 1
            ≤ attempt + 1 + 1 := by omega
          _ ≤ (fetchRetryGo outcomes r (attempt + 1) s
                (delays ++ [2 ^ attempt * 1000])).attempts :=
              ih (attempt + 1) outcomes s _ (by omega)

/-- C1: the client makes at most 3 strictly sequential attempts, sleeping
`2^k` seconds (1000 ms, then 2000 ms) after failed attempts `k = 0, 1`; a
transport failing twice then succeeding yields the body after exactly 3
attempts with exactly those delays; and when all 3 attempts fail, the
loop re-raises the last error after writing it to the store's `error`
while the hook leaves `riskHistory` unmodified. -/
theorem fetchWithRetry_attempts_backoff_failure (o0 o1 o2 : AttemptOutcome)
    (rest : List AttemptOutcome) (s : RiskStore) :
    (fetchWithRetry (o0 :: o1 :: o2 :: rest) 3 s).attempts ≤ 3 ∧
    (∀ e0 e1 v, attemptResult o0 = .error e0 → attemptResult o1 = .error e1 →
      attemptResult o2 = .ok v →
      fetchWithRetry (o0 :: o1 :: o2 :: rest) 3 s = ⟨.ok v, s, 3, [1000, 2000]⟩) ∧
    (∀ e0 e1 e2, attemptResult o0 = .error e0 → attemptResult o1 = .error e1 →
      attemptResult o2 = .error e2 →
      fetchWithRetry (o0 :: o1 :: o2 :: rest) 3 s =
        ⟨.error e2, setError (some e2) s, 3, [1000, 2000]⟩) ∧
    (∀ e0 e1 e2 rangeInput now, attemptResult o0 = .error e0 →
      attemptResult o1 = .error e1 → attemptResult o2 = .error e2 →
      s.isLoading = false →
      (fetchRiskHistory rangeInput (o0 :: o1 :: o2 :: rest) now s).store.riskHistory =
        s.riskHistory ∧
      (fetchRiskHistory rangeInput (o0 :: o1 :: o2 :: rest) now s).store.error =
        some e2) := by
  refine ⟨fetchRetryGo_attempts_le 3 0 _ s [], ?_, ?_, ?_⟩
  · intro e0 e1 v h0 h1 h2
    simp only [fetchWithRetry, fetchRetryGo, List.getD_cons_zero, List.getD_cons_succ,
      h0, h1, h2]
    norm_num
  · intro e0 e1 e2 h0 h1 h2
    simp only [fetchWithRetry, fetchRetryGo, List.getD_cons_zero, List.getD_cons_succ,
      h0, h1, h2]
    norm_num
  · intro e0 e1 e2 rangeInput now h0 h1 h2 hload
    have hrr : fetchWithRetry (o0 :: o1 :: o2 :: rest) 3 (setLoading true (setLoading true s)) =
        ⟨.error e2, setError (some e2) (setLoading true (setLoading true s)), 3,
         [1000, 2000]⟩ := by
      simp only [fetchWithRetry, fetchRetryGo, List.getD_cons_zero, List.getD_cons_succ,
        h0, h1, h2]
      norm_num
    simp only [fetchRiskHistory, hload, Bool.false_eq_true, if_false, getRiskHistory, hrr]
    exact ⟨rfl, rfl⟩

/-- Witness for C1: with a transport that rejects on all three attempts,
the last message lands in `error`, is re-raised, the backoff slept 1 s and
2 s, and the previously loaded history survives. -/
theorem fetchWithRetry_attempts_backoff_failure_witness :
    attemptResult (.netError "e0") = .error "e0" ∧
    attemptResult (.netError "e1") = .error "e1" ∧
    attemptResult (.netError "e2") = .error "e2" ∧
    ({ initialStore with riskHistory := [JSVal.obj []] } : RiskStore).isLoading = false ∧
    fetchWithRetry [.netError "e0", .netError "e1", .netError "e2"] 3
        { initialStore with riskHistory := [JSVal.obj []] } =
      ⟨.error "e2", setError (some "e2") { initialStore with riskHistory := [JSVal.obj []] },
       3, [1000, 2000]⟩ ∧
    (fetchRiskHistory (.numDays 90) [.netError "e0", .netError "e1", .netError "e2"] 5
        { initialStore with riskHistory := [JSVal.obj []] }).store.riskHistory =
      [JSVal.obj []] :=
  ⟨rfl, rfl, rfl, rfl,
   (fetchWithRetry_attempts_backoff_failure (.netError "e0") (.netError "e1")
       (.netError "e2") [] { initialStore with riskHistory := [JSVal.obj []] }).2.2.1
     "e0" "e1" "e2" rfl rfl rfl,
   ((fetchWithRetry_attempts_backoff_failure (.netError "e0") (.netError "e1")
       (.netError "e2") [] { initialStore with riskHistory := [JSVal.obj []] }).2.2.2
     "e0" "e1" "e2" (.numDays 90) 5 rfl rfl rfl rfl).1⟩

/-- A body accepted by `validateApiResponse` is truthy. -/
theorem validateApiResponse_ok_truthy (b : JSVal)
    (h : validateApiResponse b = .ok ()) : truthy b = true := by
  by_cases h1 : (!truthy b || !typeofObject b) = true
  · rw [validateApiResponse, if_pos h1] at h
    exact absurd h (by simp)
  · simp only [Bool.or_eq_true, Bool.not_eq_true'] at h1
    push_neg at h1
    simpa using h1.1

/-- C3, counterexample: a body carrying an `error` field throws inside the
retry loop and is retried like a transport failure — three transport-level
successes delivering `{error: "boom"}` produce 3 attempts, not the single
attempt the claim allows. -/
theorem errorBody_retried_counterexample :
    validateApiResponse (JSVal.obj [("error", .str "boom")]) = .error "boom" ∧
    (getRiskHistory ⟨some 90, none, none⟩
        [.ok (JSVal.obj [("error", .str "boom")]),
         .ok (JSVal.obj [("error", .str "boom")]),
         .ok (JSVal.obj [("error", .str "boom")])] initialStore).attempts = 3 ∧
    (3 : Nat) ≠ 1 :=
  ⟨rfl, rfl, by decide⟩

/-- C3, amended: only failures thrown inside the retry loop — transport
errors, non-2xx statuses, and `validateApiResponse` failures (falsy or
non-object bodies, or bodies with a truthy `error` field) — are retried;
a body that passes `validateApiResponse` but matches no known shape is a
terminal format error after exactly one attempt with no backoff. -/
theorem retry_scope_amended (b : JSVal) (o : AttemptOutcome)
    (rest : List AttemptOutcome) (range : NormRange) (s : RiskStore) :
    (validateApiResponse b = .ok () → isArr (getField b "data") = false →
      isArr b = false →
      getRiskHistory range (.ok b :: rest) s =
        ⟨.error "Invalid risk data format received", setLoading false (setLoading true s),
         1, [], buildParams range⟩) ∧
    (∀ e, attemptResult o = .error e →
      2 ≤ (fetchWithRetry (o :: rest) 3 s).attempts) := by
  constructor
  · intro hvalid hdata harr
    have hbody : attemptResult (.ok b) = .ok b := by
      simp [attemptResult, hvalid]
    have hrr : fetchWithRetry (.ok b :: rest) 3 (setLoading true s) =
        ⟨.ok b, setLoading true s, 1, []⟩ := by
      simp only [fetchWithRetry, fetchRetryGo, List.getD_cons_zero, hbody]
    have htru := validateApiResponse_ok_truthy b hvalid
    simp only [getRiskHistory, hrr, htru, hdata, harr, Bool.and_false, Bool.false_and,
      Bool.true_and, if_false]
    simp
  · intro e he
    have hstep : fetchWithRetry (o :: rest) 3 s =
        fetchRetryGo (o :: rest) 2 1 s [1000] := by
      simp only [fetchWithRetry, fetchRetryGo, List.getD_cons_zero, he]
      norm_num
    rw [hstep]
    exact fetchRetryGo_attempts_lower 2 1 (o :: rest) s [1000] (by norm_num)

/-- Witness for C3 as amended: the empty object `{}` passes
`validateApiResponse` but matches no shape, so the fetch ends after one
attempt with the format error; and an error-body outcome is retried. -/
theorem retry_scope_amended_witness :
    validateApiResponse (JSVal.obj []) = .ok () ∧
    isArr (getField (JSVal.obj []) "data") = false ∧
    isArr (JSVal.obj []) = false ∧
    getRiskHistory ⟨some 90, none, none⟩ [.ok (JSVal.obj [])] initialStore =
      ⟨.error "Invalid risk data format received",
       setLoading false (setLoading true initialStore), 1, [],
       buildParams ⟨some 90, none, none⟩⟩ ∧
    attemptResult (.ok (JSVal.obj [("error", .str "x")])) = .error "x" ∧
    2 ≤ (fetchWithRetry [.ok (JSVal.obj [("error", .str "x")])] 3 initialStore).attempts :=
  ⟨rfl, rfl, rfl,
   (retry_scope_amended (JSVal.obj []) (.ok (JSVal.obj [("error", .str "x")])) []
       ⟨some 90, none, none⟩ initialStore).1 rfl rfl rfl,
   rfl,
   (retry_scope_amended (JSVal.obj []) (.ok (JSVal.obj [("error", .str "x")])) []
       ⟨some 90, none, none⟩ initialStore).2 "x" rfl⟩

/-- `getRiskHistory`'s attempt count, delays and query parameters do not
depend on which result branch is taken. -/
theorem getRiskHistory_fields (range : NormRange) (outcomes : List AttemptOutcome)
    (s : RiskStore) :
    (getRiskHistory range outcomes s).attempts =
      (fetchWithRetry outcomes 3 (setLoading true s)).attempts ∧
    (getRiskHistory range outcomes s).params = buildParams range ∧
    (getRiskHistory range outcomes s).delays =
      (fetchWithRetry outcomes 3 (setLoading true s)).delays := by
  simp only [getRiskHistory]
  cases hres : (fetchWithRetry outcomes 3 (setLoading true s)).result with
  | error e => exact ⟨rfl, rfl, rfl⟩
  | ok response =>
    dsimp only
    split
    · exact ⟨rfl, rfl, rfl⟩
    · split
      · exact ⟨rfl, rfl, rfl⟩
      · exact ⟨rfl, rfl, rfl⟩

/-- C4, counterexample: `days = -5` violates the `days > 0` constraint —
`validateDateRangeParams` would reject it — yet `getRiskHistory` issues
the network request (1 attempt, `days=-5` in the query) and succeeds;
no invalid-range error is raised before (or instead of) the call. -/
theorem no_range_validation_counterexample :
    validateDateRangeParams (.num (-5)) .undefined .undefined =
      .error "Days parameter must be a positive number" ∧
    (getRiskHistory ⟨some (-5), none, none⟩
        [.ok (JSVal.obj [("data", .arr [])])] initialStore).attempts = 1 ∧
    (getRiskHistory ⟨some (-5), none, none⟩
        [.ok (JSVal.obj [("data", .arr [])])] initialStore).result =
      .ok (JSVal.obj [("data", .arr [])]) ∧
    (getRiskHistory ⟨some (-5), none, none⟩
        [.ok (JSVal.obj [("data", .arr [])])] initialStore).params =
      [("days", "-5")] :=
  ⟨rfl, rfl, rfl, rfl⟩

/-- C4, amended: `getRiskHistory` performs no range validation — every
range argument, constraint-violating or not, results in a network request
(at least one attempt) whose query carries the truthy fields verbatim —
and only when no field is truthy does it default to `days=180`; the
constraints themselves live in the never-invoked `validateDateRangeParams`,
which rejects any non-positive `days`. -/
theorem getRiskHistory_range_handling_amended (range : NormRange)
    (outcomes : List AttemptOutcome) (s : RiskStore) (d : ℚ) :
    1 ≤ (getRiskHistory range outcomes s).attempts ∧
    (truthyDays range.days = false → truthyStr range.startDate = false →
      truthyStr range.endDate = false →
      (getRiskHistory range outcomes s).params = [("days", "180")]) ∧
    (truthyDays range.days = true →
      (getRiskHistory range outcomes s).params =
        ("days", jsToString (.num (range.days.getD 0))) ::
        ((if truthyStr range.startDate then [("start_date", range.startDate.getD "")] else []) ++
         (if truthyStr range.endDate then [("end_date", range.endDate.getD "")] else []))) ∧
    (d ≤ 0 → validateDateRangeParams (.num d) .undefined .undefined =
      .error "Days parameter must be a positive number") := by
  obtain ⟨hatt, hpar, -⟩ := getRiskHistory_fields range outcomes s
  refine ⟨?_, ?_, ?_, ?_⟩
  · rw [hatt]
    exact fetchRetryGo_attempts_lower 3 0 outcomes (setLoading true s) [] (by norm_num)
  · intro h1 h2 h3
    rw [hpar]
    simp [buildParams, h1, h2, h3]
  · intro h1
    rw [hpar]
    simp [buildParams, h1]
  · intro hd
    have hlt : decide ((0 : ℚ) < d) = false := decide_eq_false (not_lt.mpr hd)
    simp [validateDateRangeParams, isUndef, isValidNumber, isNum, toNum, hlt]

/-- Witness for C4 as amended: the empty range defaults to `days=180` and
still issues a request; `validateDateRangeParams` rejects `-5`. -/
theorem getRiskHistory_range_handling_amended_witness :
    truthyDays (none : Option ℚ) = false ∧ truthyStr (none : Option String) = false ∧
    ((-5 : ℚ) ≤ 0) ∧
    1 ≤ (getRiskHistory ⟨none, none, none⟩ [.netError "down"] initialStore).attempts ∧
    (getRiskHistory ⟨none, none, none⟩ [.netError "down"] initialStore).params =
      [("days", "180")] ∧
    validateDateRangeParams (.num (-5)) .undefined .undefined =
      .error "Days parameter must be a positive number" :=
  ⟨rfl, rfl, by norm_num,
   (getRiskHistory_range_handling_amended ⟨none, none, none⟩ [.netError "down"]
       initialStore (-5)).1,
   (getRiskHistory_range_handling_amended ⟨none, none, none⟩ [.netError "down"]
       initialStore (-5)).2.1 rfl rfl rfl,
   (getRiskHistory_range_handling_amended ⟨none, none, none⟩ [.netError "down"]
       initialStore (-5)).2.2.2 (by norm_num)⟩

/-- C9, counterexample: a legacy array whose single item fails every
per-item check (no risk score, no regime, no timestamp) — so *no* item
validates — is still fetched successfully: the invalid item is stored in
`riskHistory` and `error` stays `null`, where the claim requires the fetch
to fail on validity grounds. -/
theorem invalid_items_kept_counterexample :
    isValidRiskData (JSVal.arr [JSVal.obj []]) = false ∧
    (fetchRiskHistory (.numDays 90) [.ok (JSVal.arr [JSVal.obj []])] 5
        initialStore).store.riskHistory = [JSVal.obj []] ∧
    (fetchRiskHistory (.numDays 90) [.ok (JSVal.arr [JSVal.obj []])] 5
        initialStore).store.error = none :=
  ⟨rfl, rfl, rfl⟩

/-- C9, amended: no per-item validation runs on the fetch path at all —
for any item list, valid or not, a legacy-array response is wrapped and an
enhanced response passed through, and in both cases every item lands in
the stored history with `error` cleared; `isValidRiskData` (which would
reject a batch if *any* item failed, not when *none* validates) is never
consulted. -/
theorem no_item_validation_amended (items : List JSVal) (rest : List AttemptOutcome)
    (rangeInput : RangeInput) (now : Nat) (s : RiskStore)
    (hload : s.isLoading = false) :
    (fetchRiskHistory rangeInput (.ok (.arr items) :: rest) now s).store.riskHistory =
      items ∧
    (fetchRiskHistory rangeInput (.ok (.arr items) :: rest) now s).store.error = none ∧
    (fetchRiskHistory rangeInput (.ok (.obj [("data", .arr items)]) :: rest) now
        s).store.riskHistory = items ∧
    (fetchRiskHistory rangeInput (.ok (.obj [("data", .arr items)]) :: rest) now
        s).store.error = none := by
  have hb1 : attemptResult (.ok (.arr items)) = .ok (.arr items) := rfl
  have hb2 : attemptResult (.ok (.obj [("data", .arr items)])) =
      .ok (.obj [("data", .arr items)]) := rfl
  have hrr1 : ∀ t : RiskStore, fetchWithRetry (.ok (.arr items) :: rest) 3 t =
      ⟨.ok (.arr items), t, 1, []⟩ := fun t => by
    simp only [fetchWithRetry, fetchRetryGo, List.getD_cons_zero, hb1]
  have hrr2 : ∀ t : RiskStore, fetchWithRetry (.ok (.obj [("data", .arr items)]) :: rest)
      3 t = ⟨.ok (.obj [("data", .arr items)]), t, 1, []⟩ := fun t => by
    simp only [fetchWithRetry, fetchRetryGo, List.getD_cons_zero, hb2]
  have hg1 : ∀ t : RiskStore,
      getRiskHistory (normalizeRange rangeInput) (.ok (.arr items) :: rest) t =
      ⟨.ok (wrapLegacy (.arr items)), setLoading false (setLoading true t), 1, [],
       buildParams (normalizeRange rangeInput)⟩ := fun t => by
    simp [getRiskHistory, hrr1, truthy, getField, isArr]
  have hg2 : ∀ t : RiskStore,
      getRiskHistory (normalizeRange rangeInput)
        (.ok (.obj [("data", .arr items)]) :: rest) t =
      ⟨.ok (.obj [("data", .arr items)]), setLoading false (setLoading true t), 1, [],
       buildParams (normalizeRange rangeInput)⟩ := fun t => by
    simp [getRiskHistory, hrr2, truthy, getField, isArr]
  constructor
  · simp [fetchRiskHistory, hload, hg1, wrapLegacy, setRiskData, getField, truthy,
      isArr, asArr, setError, setLoading]
  constructor
  · simp [fetchRiskHistory, hload, hg1, wrapLegacy, setRiskData, getField, truthy,
      isArr, asArr, setError, setLoading]
  constructor
  · simp [fetchRiskHistory, hload, hg2, setRiskData, getField, truthy,
      isArr, asArr, setError, setLoading]
  · simp [fetchRiskHistory, hload, hg2, setRiskData, getField, truthy,
      isArr, asArr, setError, setLoading]

/-- Witness for C9 as amended: a two-item legacy batch with one valid and
one invalid item is stored whole. -/
theorem no_item_validation_amended_witness :
    initialStore.isLoading = false ∧
    (fetchRiskHistory (.numDays 30)
        [.ok (.arr [JSVal.obj [("systemic_risk", .num 1), ("risk_level", .str "low"),
                               ("timestamp", .str "2024-01-01")],
                    JSVal.obj []])] 6 initialStore).store.riskHistory =
      [JSVal.obj [("systemic_risk", .num 1), ("risk_level", .str "low"),
                  ("timestamp", .str "2024-01-01")],
       JSVal.obj []] :=
  ⟨rfl,
   (no_item_validation_amended
     [JSVal.obj [("systemic_risk", .num 1), ("risk_level", .str "low"),
                 ("timestamp", .str "2024-01-01")], JSVal.obj []]
     [] (.numDays 30) 6 initialStore rfl).1⟩

/-- Spec-side reading of an observation's risk-score field: the data
model's "numeric risk score field (`systemic_risk` or
`systemic_risk_score`)". -/
def specRiskScore (d : JSVal) : Option ℚ :=
  match toNum (getField d "systemic_risk") with
  | some q => some q
  | none => toNum (getField d "systemic_risk_score")

/-- Spec-side arithmetic mean of the observations' risk-score field. -/
def specRiskScoreMean (data : List JSVal) : Option ℚ :=
  let vals := data.filterMap specRiskScore
  if vals.isEmpty then none else some (vals.sum / (vals.length : ℚ))

/-- The value the code actually averages per item: the `systemic_risk`
field, with a missing, falsy or non-numeric value read as 0
(`systemic_risk_score` is never consulted). -/
def substRisk (d : JSVal) : ℚ := (toNum (getField d "systemic_risk")).getD 0

/-- Arithmetic mean of a list of rationals (spec side). -/
def meanQ (l : List ℚ) : ℚ := l.sum / (l.length : ℚ)

/-- Population variance — divide by N, not N−1 — of a list (spec side). -/
def popVarQ (l : List ℚ) : ℚ :=
  (l.map fun x => (x - meanQ l) ^ 2).sum / (l.length : ℚ)

/-- On items whose substituted risk value is numeric, `d.systemic_risk || 0`
survives the `isNaN` filter with exactly the value `substRisk d`. -/
theorem toNum_riskOrZero (d : JSVal) (h : (toNum (riskOrZero d)).isSome = true) :
    toNum (riskOrZero d) = some (substRisk d) := by
  unfold substRisk riskOrZero jsOr
  unfold riskOrZero jsOr at h
  cases hf : getField d "systemic_risk" with
  | num q =>
    by_cases hq : q = 0
    · subst hq; simp [truthy, toNum]
    · simp [truthy, toNum, hq]
  | null => simp [truthy, toNum]
  | undefined => simp [truthy, toNum]
  | bool b =>
    cases b
    · simp [truthy, toNum]
    · rw [hf] at h; simp [truthy, toNum] at h
  | str s =>
    by_cases hs : s = ""
    · subst hs; simp [truthy, toNum]
    · rw [hf] at h; simp [truthy, toNum, hs] at h
  | arr l => rw [hf] at h; simp [truthy, toNum] at h
  | obj l => rw [hf] at h; simp [truthy, toNum] at h

/-- When every item's substituted risk value is numeric, the filtered list
the code averages is exactly the per-item substituted values. -/
theorem systemicRisks_eq_map (data : List JSVal)
    (h : ∀ d ∈ data, (toNum (riskOrZero d)).isSome = true) :
    systemicRisks data = data.map substRisk := by
  induction data with
  | nil => rfl
  | cons d ds ih =>
    have hd := toNum_riskOrZero d (h d (List.mem_cons_self _ _))
    have hds := ih fun x hx => h x (List.mem_cons_of_mem _ hx)
    show ((d :: ds).map riskOrZero).filterMap toNum = substRisk d :: ds.map substRisk
    rw [List.map_cons]
    simp only [List.filterMap_cons, hd]
    exact congrArg (substRisk d :: ·) hds

/-- C2, counterexample: an observation carrying its risk score only in
`systemic_risk_score` (here 3) has spec-side risk-score mean 3, but the
synthesized summary's `period_mean` is 0 — the code reads only
`systemic_risk` and substitutes 0 when it is absent. -/
theorem generateSummary_riskScoreField_counterexample :
    specRiskScoreMean
        [JSVal.obj [("systemic_risk_score", .num 3), ("date", .str "2024-01-01")]] =
      some 3 ∧
    (generateSummaryFromArray
        [JSVal.obj [("systemic_risk_score", .num 3), ("date", .str "2024-01-01")]]).map
      (fun st => st.period_mean) = some 0 ∧
    (0 : ℚ) ≠ 3 :=
  ⟨by
     have h1 : List.filterMap specRiskScore
         [JSVal.obj [("systemic_risk_score", JSVal.num 3), ("date", JSVal.str "2024-01-01")]] =
         [3] := rfl
     simp only [specRiskScoreMean, h1]
     norm_num,
   by
     have h1 : systemicRisks
         [JSVal.obj [("systemic_risk_score", JSVal.num 3), ("date", JSVal.str "2024-01-01")]] =
         [0] := rfl
     simp only [generateSummaryFromArray, h1]
     norm_num [listMin, listMax],
   by norm_num⟩

/-- C2, amended: for every non-empty legacy array whose items' substituted
risk values are numeric, the synthesized summary exists and its
`period_mean` is the arithmetic mean of the per-item values
`d.systemic_risk || 0` (missing/falsy values read as 0,
`systemic_risk_score` ignored), `period_std` the population standard
deviation (divide by N) of those values, `period_min`/`period_max` their
minimum/maximum, and `date_range` comes from the first and last element's
`date` field (empty string when absent); the summary is `null` for an
empty array. -/
theorem generateSummary_amended (data : List JSVal) (hne : data ≠ [])
    (h : ∀ d ∈ data, (toNum (riskOrZero d)).isSome = true) :
    ∃ st, generateSummaryFromArray data = some st ∧
      st.period_mean = meanQ (data.map substRisk) ∧
      st.period_std = Real.sqrt ((popVarQ (data.map substRisk) : ℚ) : ℝ) ∧
      st.period_min = listMin (data.map substRisk) ∧
      st.period_max = listMax (data.map substRisk) ∧
      st.data_points = data.length ∧
      st.range_start = jsOr (getField data.headI "date") (.str "") ∧
      st.range_end = jsOr (getField (data.getLastD .undefined) "date") (.str "") := by
  have hsys := systemicRisks_eq_map data h
  have hde : data.isEmpty = false := by
    cases data with
    | nil => exact absurd rfl hne
    | cons d ds => rfl
  have hre : (List.map substRisk data).isEmpty = false := by
    cases data with
    | nil => exact absurd rfl hne
    | cons d ds => rfl
  have hmain : generateSummaryFromArray data = some
      { period_mean := meanQ (data.map substRisk),
        period_var := popVarQ (data.map substRisk),
        period_min := listMin (data.map substRisk),
        period_max := listMax (data.map substRisk),
        data_points := data.length,
        range_start := jsOr (getField data.headI "date") (.str ""),
        range_end := jsOr (getField (data.getLastD .undefined) "date") (.str "") } := by
    simp only [generateSummaryFromArray, hde, hre, Bool.false_eq_true, if_false, hsys,
      meanQ, popVarQ, List.length_map]
  exact ⟨_, hmain, rfl, rfl, rfl, rfl, rfl, rfl, rfl⟩

/-- The concrete two-observation legacy array used to witness C2. -/
def c2WitnessData : List JSVal :=
  [JSVal.obj [("systemic_risk", .num 0), ("date", .str "2024-01-01")],
   JSVal.obj [("systemic_risk", .num 2), ("date", .str "2024-01-02")]]

/-- Witness for C2 as amended, at the risk values `[0, 2]` (mean 1,
population variance 1, so `period_std = √1`). -/
theorem generateSummary_amended_witness :
    c2WitnessData ≠ [] ∧
    (∀ d ∈ c2WitnessData, (toNum (riskOrZero d)).isSome = true) ∧
    (∃ st, generateSummaryFromArray c2WitnessData = some st ∧
      st.period_mean = meanQ (c2WitnessData.map substRisk) ∧
      st.period_std = Real.sqrt ((popVarQ (c2WitnessData.map substRisk) : ℚ) : ℝ) ∧
      st.period_min = listMin (c2WitnessData.map substRisk) ∧
      st.period_max = listMax (c2WitnessData.map substRisk) ∧
      st.data_points = c2WitnessData.length ∧
      st.range_start = jsOr (getField c2WitnessData.headI "date") (.str "") ∧
      st.range_end = jsOr (getField (c2WitnessData.getLastD .undefined) "date") (.str "")) ∧
    meanQ (c2WitnessData.map substRisk) = 1 ∧
    popVarQ (c2WitnessData.map substRisk) = 1 :=
  ⟨List.cons_ne_nil _ _,
   (by
     intro d hd
     rcases List.mem_cons.mp hd with rfl | hd2
     · rfl
     rcases List.mem_cons.mp hd2 with rfl | hd3
     · rfl
     · exact absurd hd3 (List.not_mem_nil _)),
   generateSummary_amended c2WitnessData (List.cons_ne_nil _ _)
     (by
       intro d hd
       rcases List.mem_cons.mp hd with rfl | hd2
       · rfl
       rcases List.mem_cons.mp hd2 with rfl | hd3
       · rfl
       · exact absurd hd3 (List.not_mem_nil _)),
   by
     have h1 : c2WitnessData.map substRisk = [0, 2] := rfl
     simp only [meanQ, h1]
     norm_num,
   by
     have h1 : c2WitnessData.map substRisk = [0, 2] := rfl
     simp only [popVarQ, meanQ, h1]
     norm_num⟩
